import Mathlib

/-!
Verification of the errors-framework repository: a shallow embedding of
`src/errors.ts` (the `BaseError` hierarchy with its `toString` /
`detailToString` / `generateRef` logic) and of the `ErrorConfigs` catalog
from `src/errors.js`, together with proofs of the documented properties.

Modelling conventions:
* JavaScript runtime values that may appear in the `details` / `debugInfo`
  payloads are modelled by the inductive type `Js`; an absent (`undefined`)
  payload is `Js.undefined`.
* JavaScript numbers are modelled as integers (no claim exercises floats).
* The expression `` `...`[consoleTextColor.details] `` in
  `BaseError.toString` is the String-prototype getter installed by the
  `colors` npm package; it wraps the string in ANSI color escapes
  (cyan = ESC[36m ... ESC[39m, green = ESC[32m ... ESC[39m), which is what
  `cyanize` / `greenize` compute.
* The process-wide static flag `BaseError.addDebugInfoToMessage` is passed
  explicitly as the boolean argument `flag` of the rendering functions.
* `Math.floor(Math.random() * n)` yields an arbitrary natural number `< n`;
  the random draws of `generateRef` are therefore passed in explicitly as
  the six fields of `RefRand`, constrained by `RefRand.inRange`.
* The inherited `Error.message` field set by the base constructor (which
  depends on the static `addDetailsToMessage` flag) is not consulted by any
  rendering function or claim and is not modelled.
-/

/-- `ErrorType` enum of `src/errors.ts`. -/
inductive ErrorType where
  | operation
  | rule
  | apiCall
  | security
  | connection
  | user
  | deviceOp
  | unhandledRejection
  | uncaughtException
  | noOp
deriving DecidableEq

/-- The string value of each `ErrorType` enum member. -/
def ErrorType.str : ErrorType → String
  | .operation => "operationError"
  | .rule => "ruleViolation"
  | .apiCall => "apiCallError"
  | .security => "securityViolation"
  | .connection => "connectionError"
  | .user => "userError"
  | .deviceOp => "deviceOpError"
  | .unhandledRejection => "unhandledRejection"
  | .uncaughtException => "uncaughtException"
  | .noOp => "noOp"

/-- `ConnectionType` enum of `src/errors.ts`. -/
inductive ConnectionType where
  | lan
  | internet
  | remoteProcess
  | db
deriving DecidableEq

/-- The string value of each `ConnectionType` enum member. -/
def ConnectionType.str : ConnectionType → String
  | .lan => "local area network"
  | .internet => "internet"
  | .remoteProcess => "remote process"
  | .db => "database"

/-- `UserErrorCategory` enum of `src/errors.ts`. -/
inductive UserErrorCategory where
  | passwordComplexity
  | invalidLogin
  | priorAccountWithEmail
  | priorAccountWithTelecom
  | authTokenExpired
  | invalidData
  | insufficientPermissions
  | external
  | blockedAccount
  | canceledAccount
  | operationNotAllowed
  | pharmacyDoesNotExist
  | pharmacyAlreadyExists
  | pharmacyDoesNotAcceptFax
  | rxDoesNotExist
  | rxAlreadyImported
  | rxDoesNotBelongToUser
  | fillRequestAlreadyExists
  | rxFillNotAllowed
  | rxFilledAlready
  | rxDownloadTokenAlreadyRedeemed
  | rxCreationError
  | rxCreationTrialOnlyError
  | rxCancellationError
  | wrongDob
  | wrongTelecom
  | wrongDobOrTelecom
  | permissionNotGranted
  | serviceNotEnabled
  | telecomExtensionNotAllowed
  | userUpsertWhenEmailIsVerifiedNotAllowed
  | passwordResetOperationNotAllowed
  | invalidPasswordResetCode
  | passwordResetCodeHasExpired
  | noDownloadableRx
  | rxFillDoesNotExist
  | chatDoesNotExist
  | clinicDoesNotExist
  | clinicianDoesNotExist
  | emailVerificationAlreadyDone
  | emailVerificationCodeInvalid
  | emailVerificationCodeExpired
  | matchingAddressNotFound
deriving DecidableEq

/-- `DeviceOpErrorCategory` enum of `src/errors.ts`. -/
inductive DeviceOpErrorCategory where
  | locationService
  | userDataNotFoundInLocalDb
  | appDataNotFoundInLocalDb
deriving DecidableEq

/-- The identifying (variant-specific) data of each concrete subclass of
`BaseError` in `src/errors.ts`. -/
inductive Variant where
  | opError (componentName opName : String)
  | noOpError (componentName opName : String)
  | ruleViolationError (rule : String)
  | securityRuleViolation (rule : String)
  | apiCallError (service endpoint : String)
  | connectionError (connectionType : ConnectionType)
  | notImplementedError
  | userError (category : UserErrorCategory)
  | deviceOpError (componentName opName : String)
      (category : DeviceOpErrorCategory) (deviceOS : String)
  | unhandledRejection
  | uncaughtException

/-- The `ErrorType` passed to `super(...)` by each subclass constructor. -/
def Variant.errType : Variant → ErrorType
  | .opError _ _ => .operation
  | .noOpError _ _ => .noOp
  | .ruleViolationError _ => .rule
  | .securityRuleViolation _ => .security
  | .apiCallError _ _ => .apiCall
  | .connectionError _ => .connection
  | .notImplementedError => .operation
  | .userError _ => .user
  | .deviceOpError _ _ _ _ => .deviceOp
  | .unhandledRejection => .unhandledRejection
  | .uncaughtException => .uncaughtException

/-- `constructor.name` of each concrete subclass (always a non-empty
literal, so the final `e.toString()` fallback of the static `toString` is
unreachable). -/
def Variant.constructorName : Variant → String
  | .opError _ _ => "OpError"
  | .noOpError _ _ => "NoOpError"
  | .ruleViolationError _ => "RuleViolationError"
  | .securityRuleViolation _ => "SecurityRuleViolation"
  | .apiCallError _ _ => "APICallError"
  | .connectionError _ => "ConnectionError"
  | .notImplementedError => "NotImplementedError"
  | .userError _ => "UserError"
  | .deviceOpError _ _ _ _ => "DeviceOpError"
  | .unhandledRejection => "UnhandledRejection"
  | .uncaughtException => "UncaughtException"

/-- JavaScript runtime values that can appear as a `details` or `debugInfo`
payload: primitives, arrays, plain objects, generic `Error` objects
(with `name`, `message` and a possibly-empty `stack` string) and
`BaseError` instances (variant data, payloads and the `errorRef` string). -/
inductive Js where
  | str (s : String)
  | num (n : Int)
  | bool (b : Bool)
  | null
  | undefined
  | arr (elems : List Js)
  | obj (fields : List (String × Js))
  | jsError (name message stack : String)
  | baseErr (v : Variant) (details debugInfo : Js) (errorRef : String)

/-- JavaScript truthiness of a modelled value. -/
def truthy : Js → Bool
  | .str s => s != ""
  | .num n => n != 0
  | .bool b => b
  | .null => false
  | .undefined => false
  | .arr _ => true
  | .obj _ => true
  | .jsError _ _ _ => true
  | .baseErr _ _ _ _ => true

/-- ANSI color wrapping performed by the `colors` npm package
String-prototype getters used in `BaseError.toString`. -/
def colorize (openCode s : String) : String :=
  openCode ++ s ++ "\x1b[39m"

/-- The `.cyan` getter (`consoleTextColor.details`). -/
def cyanize (s : String) : String :=
  colorize "\x1b[36m" s

/-- The `.green` getter (`consoleTextColor.debugInfo`). -/
def greenize (s : String) : String :=
  colorize "\x1b[32m" s

/-- `Error.prototype.toString()`: `name` and `message` joined by `": "`,
omitting an empty side. -/
def errorProtoToString (name message : String) : String :=
  if name = "" then message
  else if message = "" then name
  else name ++ ": " ++ message

/-- The `headline` getter of each subclass, with the default JavaScript
stringification of `this.details` passed in as `detailsJsStr` (it is only
consulted by the `UserError` and `DeviceOpError` getters, which append
`" " + this.details.toString()` when `this.details` is truthy). -/
def hlWith (v : Variant) (details : Js) (detailsJsStr : String) : String :=
  match v with
  | .opError componentName opName =>
      "Internal operation \"" ++ componentName ++ "." ++ opName ++ "()\" failed"
  | .noOpError componentName opName =>
      "Internal operation \"" ++ componentName ++ "." ++ opName ++ "()\" failed"
  | .ruleViolationError rule =>
      "Internal rule \"" ++ rule ++ "\" was violated"
  | .securityRuleViolation rule =>
      "Security rule \"" ++ rule ++ "\" was violated"
  | .apiCallError service endpoint =>
      "API call to " ++ service ++ " endpoint \"" ++ endpoint ++ "\" failed"
  | .connectionError connectionType =>
      "Could not establish " ++ connectionType.str ++ " connection"
  | .notImplementedError => "Feature not yet implemented"
  | .userError _ =>
      "User error \"" ++ ErrorType.user.str ++ "\"" ++
        (if truthy details then " " ++ detailsJsStr else "")
  | .deviceOpError _ _ _ _ =>
      "Device operation error \"" ++ ErrorType.deviceOp.str ++ "\"" ++
        (if truthy details then " " ++ detailsJsStr else "")
  | .unhandledRejection => "Unhandled error occured in a promise"
  | .uncaughtException => "Uncaught exception"

/-- Body of the static `BaseError.toString(e)`, with the recursive
stringifications of the payloads passed in: `detailsJsStr` is the default
stringification of `details` (needed by `hlWith`), `detailsDetailStr` and
`debugDetailStr` are `detailToString` of the two payloads.  `flag` is the
static `BaseError.addDebugInfoToMessage`. -/
def errAssemble (flag : Bool) (v : Variant) (details debugInfo : Js)
    (detailsJsStr detailsDetailStr debugDetailStr : String) : String :=
  let headline := hlWith v details detailsJsStr
  if headline != "" || truthy details || truthy debugInfo then
    (if headline != "" then headline else "") ++
    (if truthy details then cyanize ("\n" ++ detailsDetailStr) else "") ++
    (if truthy debugInfo && flag then
        greenize ("\n" ++ debugDetailStr ++ "\n")
      else "")
  else
    v.constructorName

mutual

/-- For a value, the pair of (default JavaScript `String(x)` conversion,
`BaseError.detailToString(x)`).  `BaseError` instances override `toString`,
so both components coincide there; the `detailToString` dispatch follows
the `instanceof` chain of the source (array, `UnhandledRejection` and
`BaseError` both reach the overridden `toString`, generic `Error` uses the
stack when truthy, plain objects render `"key: value"` pairs, primitives
use default stringification with falsy values collapsing to `""`). -/
def renderPair (flag : Bool) : Js → String × String
  | .str s => (s, if s != "" then s else "")
  | .num n => (toString n, if n != 0 then toString n else "")
  | .bool b => (if b then "true" else "false", if b then "true" else "")
  | .null => ("null", "")
  | .undefined => ("undefined", "")
  | .arr elems =>
      let p := renderElems flag elems
      (String.intercalate "," p.1, String.intercalate " & " p.2)
  | .obj fields =>
      ("[object Object]", String.intercalate ", " (renderKvs flag fields))
  | .jsError name message stack =>
      (errorProtoToString name message,
        if stack != "" then stack else errorProtoToString name message)
  | .baseErr v details debugInfo _ =>
      let pd := renderPair flag details
      let pdbg := renderPair flag debugInfo
      let s := errAssemble flag v details debugInfo pd.1 pd.2 pdbg.2
      (s, s)

/-- Element-wise renderings of an array: first component is the
`Array.prototype.join(",")` element strings (`null` and `undefined`
elements become `""`), second component the `detailToString` strings. -/
def renderElems (flag : Bool) : List Js → List String × List String
  | [] => ([], [])
  | x :: xs =>
      let p := renderPair flag x
      let rest := renderElems flag xs
      let jsStr := match x with
        | .null => ""
        | .undefined => ""
        | _ => p.1
      (jsStr :: rest.1, p.2 :: rest.2)

/-- `"key: detailToString(value)"` strings of a plain object. -/
def renderKvs (flag : Bool) : List (String × Js) → List String
  | [] => []
  | (k, v) :: rest => (k ++ ": " ++ (renderPair flag v).2) :: renderKvs flag rest

end

/-- Default JavaScript `String(x)` conversion of a modelled value. -/
def jsToString (flag : Bool) (j : Js) : String :=
  (renderPair flag j).1

/-- `BaseError.detailToString` of `src/errors.ts`. -/
def detailToString (flag : Bool) (j : Js) : String :=
  (renderPair flag j).2

/-- The `headline` getter as a function of the variant data and the
`details` payload. -/
def hl (flag : Bool) (v : Variant) (details : Js) : String :=
  hlWith v details (jsToString flag details)

/-- The static `BaseError.toString(e)` of `src/errors.ts` applied to an
instance with the given variant data and payloads. -/
def errToString (flag : Bool) (v : Variant) (details debugInfo : Js) : String :=
  errAssemble flag v details debugInfo
    (jsToString flag details) (detailToString flag details)
    (detailToString flag debugInfo)

/-- Whether `pat` occurs as a contiguous segment of `l` (leftmost scan). -/
def occursIn (pat : List Char) : List Char → Bool
  | [] => pat.isEmpty
  | c :: rest => pat.isPrefixOf (c :: rest) || occursIn pat rest

/-- `hay` contains `needle` as a contiguous substring. -/
def strContains (hay needle : String) : Prop :=
  occursIn needle.data hay.data = true

/-- The six random draws consumed by `BaseError.generateRef`: three values
of `Math.floor(Math.random() * possible.length)` and three of
`Math.floor(Math.random() * 9)`. -/
structure RefRand where
  l1 : Nat
  l2 : Nat
  l3 : Nat
  d1 : Nat
  d2 : Nat
  d3 : Nat

/-- The range constraint guaranteed by `Math.random() ∈ [0, 1)`. -/
def RefRand.inRange (r : RefRand) : Prop :=
  r.l1 < 26 ∧ r.l2 < 26 ∧ r.l3 < 26 ∧ r.d1 < 9 ∧ r.d2 < 9 ∧ r.d3 < 9

/-- The alphabet string of `BaseError.generateRef`. -/
def possible : String := "ABCDEFGHIJKLMNOPQRSTUVWXYZ"

/-- JavaScript `String.prototype.charAt`: the one-character string at the
index, or `""` out of range. -/
def charAt (s : String) (i : Nat) : String :=
  String.mk ((s.data.drop i).take 1)

/-- The decimal string appended by `ref += Math.floor(Math.random() * 9)`. -/
def digitStr (d : Nat) : String :=
  toString d

/-- `BaseError.generateRef` with the six random draws made explicit. -/
def generateRef (r : RefRand) : String :=
  "" ++ charAt possible r.l1 ++ charAt possible r.l2 ++ charAt possible r.l3
    ++ digitStr r.d1 ++ digitStr r.d2 ++ digitStr r.d3

/-- An instance of (a concrete subclass of) `BaseError`: the fields stored
by the constructors of `src/errors.ts`.  The `type` field always equals
`variant.errType`, so it is derived rather than stored. -/
structure ErrInst where
  variant : Variant
  details : Js
  debugInfo : Js
  errorRef : String

/-- The stored `type` field. -/
def ErrInst.type (e : ErrInst) : ErrorType :=
  e.variant.errType

/-- The `headline` getter of an instance. -/
def ErrInst.headline (flag : Bool) (e : ErrInst) : String :=
  hl flag e.variant e.details

/-- The instance `toString()` (which delegates to the static one). -/
def ErrInst.render (flag : Bool) (e : ErrInst) : String :=
  errToString flag e.variant e.details e.debugInfo

/-- `new OpError(componentName, opName, details?, debugInfo?)`. -/
def mkOpError (componentName opName : String) (details debugInfo : Js)
    (r : RefRand) : ErrInst :=
  ⟨.opError componentName opName, details, debugInfo, generateRef r⟩

/-- `new NoOpError(componentName, opName, details?, debugInfo?)`. -/
def mkNoOpError (componentName opName : String) (details debugInfo : Js)
    (r : RefRand) : ErrInst :=
  ⟨.noOpError componentName opName, details, debugInfo, generateRef r⟩

/-- `new RuleViolationError(rule, details?, debugInfo?)`. -/
def mkRuleViolationError (rule : String) (details debugInfo : Js)
    (r : RefRand) : ErrInst :=
  ⟨.ruleViolationError rule, details, debugInfo, generateRef r⟩

/-- `new SecurityRuleViolation(rule, details?, debugInfo?)`. -/
def mkSecurityRuleViolation (rule : String) (details debugInfo : Js)
    (r : RefRand) : ErrInst :=
  ⟨.securityRuleViolation rule, details, debugInfo, generateRef r⟩

/-- `new APICallError(service, endpoint, details?)` (no `debugInfo`
parameter: the base constructor receives `undefined`). -/
def mkAPICallError (service endpoint : String) (details : Js)
    (r : RefRand) : ErrInst :=
  ⟨.apiCallError service endpoint, details, .undefined, generateRef r⟩

/-- `new ConnectionError(connectionType, details?, debugInfo?)`. -/
def mkConnectionError (connectionType : ConnectionType) (details debugInfo : Js)
    (r : RefRand) : ErrInst :=
  ⟨.connectionError connectionType, details, debugInfo, generateRef r⟩

/-- `new NotImplementedError()`. -/
def mkNotImplementedError (r : RefRand) : ErrInst :=
  ⟨.notImplementedError, .undefined, .undefined, generateRef r⟩

/-- `new UserError(category, details?, debugInfo?)`. -/
def mkUserError (category : UserErrorCategory) (details debugInfo : Js)
    (r : RefRand) : ErrInst :=
  ⟨.userError category, details, debugInfo, generateRef r⟩

/-- `new DeviceOpError(componentName, opName, category, deviceOS, details?,
debugInfo?)`. -/
def mkDeviceOpError (componentName opName : String)
    (category : DeviceOpErrorCategory) (deviceOS : String)
    (details debugInfo : Js) (r : RefRand) : ErrInst :=
  ⟨.deviceOpError componentName opName category deviceOS, details, debugInfo,
    generateRef r⟩

/-- `new UnhandledRejection(promise, error)`: the promise argument is
dropped and `error` becomes the `details` payload. -/
def mkUnhandledRejection (error : Js) (r : RefRand) : ErrInst :=
  ⟨.unhandledRejection, error, .undefined, generateRef r⟩

/-- `new UncaughtException(error)`: `error` becomes the `details` payload. -/
def mkUncaughtException (error : Js) (r : RefRand) : ErrInst :=
  ⟨.uncaughtException, error, .undefined, generateRef r⟩

/-- `ErrorCategory` enum of the catalog source in `src/errors.js`. -/
inductive ErrorCategory where
  | Info
  | Allergy
  | Bot
  | BulkOperation
  | Campaign
  | Chat
  | Clinic
  | Clinician
  | ConfigStore
  | Intervention
  | Medication
  | Migrations
  | Notification
  | Patient
  | Pharmacist
  | Pharmacy
  | Rx
  | RxFill
  | RxTransaction
  | ScheduleRule
  | SituationResponder
  | SurescriptsMessage
  | Tenant
  | User
  | ApiService
  | DbService
deriving DecidableEq

/-- The `ErrorConfig` record type of the catalog. -/
structure ErrorConfig where
  code : Nat
  httpResponseCode : Nat
  category : ErrorCategory
  message : String
deriving DecidableEq

/-- The fields of the `ErrorConfigs` catalog class (the `IErrorConfigs`
interface of `src/errors.js`). -/
structure IErrorConfigs where
  createFailed : ErrorConfig
  createOperationNotPermitted : ErrorConfig
  deleteFailed : ErrorConfig
  deleteOperationNotPermitted : ErrorConfig
  invalidData : ErrorConfig
  lookupFailed : ErrorConfig
  lookupOperationNotPermitted : ErrorConfig
  operationFailed : ErrorConfig
  operationNotPermitted : ErrorConfig
  updateFailed : ErrorConfig
  updateOperationNotPermitted : ErrorConfig
  uploadFailed : ErrorConfig
  uploadOperationNotPermitted : ErrorConfig
  upsertFailed : ErrorConfig
  upsertOperationNotPermitted : ErrorConfig
  recordAlreadyExists : ErrorConfig
  recordAlreadyImported : ErrorConfig
  recordDoesNotBelongToUser : ErrorConfig
  recordDoesNotExist : ErrorConfig
  serviceNotEnabled : ErrorConfig
  unknownError : ErrorConfig
  noDownloadableRx : ErrorConfig
  rxCancellationError : ErrorConfig
  rxCreationTrialOnlyError : ErrorConfig
  rxDownloadTokenAlreadyRedeemed : ErrorConfig
  requestRxDownloadTokenFailed : ErrorConfig
  redeemRxDownloadTokenFailed : ErrorConfig
  rxFilledAlready : ErrorConfig
  rxCancelFailed : ErrorConfig
  rxCancelFailedUnknown : ErrorConfig
  rxCompleteTxFailed : ErrorConfig
  rxCompleteTxFailedUnknown : ErrorConfig
  userDoesNotBelongToOrganisation : ErrorConfig
  authTokenExpired : ErrorConfig
  blockedAccount : ErrorConfig
  canceledAccount : ErrorConfig
  emailVerificationAlreadyDone : ErrorConfig
  emailVerificationCodeExpired : ErrorConfig
  emailVerificationCodeInvalid : ErrorConfig
  insufficientPermissions : ErrorConfig
  invalidAuthToken : ErrorConfig
  invalidLogin : ErrorConfig
  invalidPasswordResetCode : ErrorConfig
  operationNotAllowed : ErrorConfig
  passwordComplexity : ErrorConfig
  passwordResetCodeHasExpired : ErrorConfig
  passwordResetOperationNotAllowed : ErrorConfig
  permissionNotGranted : ErrorConfig
  priorAccountWithEmail : ErrorConfig
  priorAccountWithTelecom : ErrorConfig
  userUpsertWhenEmailIsVerifiedNotAllowed : ErrorConfig
  wrongDob : ErrorConfig
  wrongDobOrTelecom : ErrorConfig
  wrongTelecom : ErrorConfig
  responderNotPermitted : ErrorConfig
  situationTypeNotPermitted : ErrorConfig
  telecomExtensionNotAllowed : ErrorConfig
  matchingAddressNotFound : ErrorConfig
  unknownErrorpharmacyDoesNotAcceptFax : ErrorConfig
  authTokenUserDoesNotExist : ErrorConfig

/-- The `ErrorConfigs` catalog of `src/errors.js` (entry order and all
field values as in the source; `\x7b` and `\x7d` are the literal brace
characters of the message templates). -/
def ErrorConfigs : IErrorConfigs where
  createFailed :=
    ⟨600001, 400, .Info, "Unable to create \x7bcontext\x7d"⟩
  createOperationNotPermitted :=
    ⟨600002, 403, .Info, "Not permitted to create \x7bcontext\x7d"⟩
  deleteFailed :=
    ⟨600003, 400, .Info, "Unable to delete \x7bcontext\x7d"⟩
  deleteOperationNotPermitted :=
    ⟨600004, 403, .Info, "Not permitted to delete \x7bcontext\x7d"⟩
  invalidData :=
    ⟨600005, 400, .Info, "Invalid or malformed data please try again"⟩
  lookupFailed :=
    ⟨600006, 400, .Info, "Unable to lookup \x7bcontext\x7d"⟩
  lookupOperationNotPermitted :=
    ⟨600007, 403, .Info, "Not permitted to lookup \x7bcontext\x7d"⟩
  operationFailed :=
    ⟨600008, 400, .Info, "Unable to perform \x7boperation\x7d operation"⟩
  operationNotPermitted :=
    ⟨600009, 403, .Info,
      "Insufficient permission to perform \x7boperation\x7d operation"⟩
  updateFailed :=
    ⟨600010, 400, .Info, "Unable to update \x7bcontext\x7d"⟩
  updateOperationNotPermitted :=
    ⟨600011, 403, .Info, "Not permitted to update \x7bcontext\x7d"⟩
  uploadFailed :=
    ⟨600012, 400, .Info, "Unable to upload \x7bcontext\x7d"⟩
  uploadOperationNotPermitted :=
    ⟨600013, 403, .Info, "Not permitted to upload \x7bcontext\x7d"⟩
  upsertFailed :=
    ⟨600014, 400, .Info, "Unable to upsert \x7bcontext\x7d"⟩
  upsertOperationNotPermitted :=
    ⟨600015, 403, .Info, "Not permitted to upsert \x7bcontext\x7d"⟩
  recordAlreadyExists :=
    ⟨600016, 405, .Info, "\x7bcontext\x7d record already exists"⟩
  recordAlreadyImported :=
    ⟨600017, 405, .Info, "\x7bcontext\x7d record already imported"⟩
  recordDoesNotBelongToUser :=
    ⟨600018, 403, .Info, "\x7bcontext\x7d record does not belong to you"⟩
  recordDoesNotExist :=
    ⟨600019, 204, .Info,
      "\x7bcontext\x7d record does not exist. Contact Support (support@scalamed.com) for help"⟩
  serviceNotEnabled :=
    ⟨600020, 405, .Info, "\x7bservice\x7d resource is not available"⟩
  unknownError :=
    ⟨600021, 500, .Info, "Unknown error"⟩
  noDownloadableRx :=
    ⟨616022, 204, .Rx, "There are no prescriptions to download"⟩
  rxCancellationError :=
    ⟨616023, 400, .Rx, "Unable to cancel requested prescription"⟩
  rxCreationTrialOnlyError :=
    ⟨616024, 400, .Rx, "Unable to create trial prescription"⟩
  rxDownloadTokenAlreadyRedeemed :=
    ⟨616025, 405, .Rx, "Prescription download token has already been redeemed"⟩
  requestRxDownloadTokenFailed :=
    ⟨616026, 400, .Rx, "Unable to generate download token"⟩
  redeemRxDownloadTokenFailed :=
    ⟨616027, 400, .Rx, "Unable to redeem token"⟩
  rxFilledAlready :=
    ⟨617028, 405, .RxFill, "Prescription has already been filled"⟩
  rxCancelFailed :=
    ⟨618029, 400, .RxTransaction, "Unable to cancel prescription"⟩
  rxCancelFailedUnknown :=
    ⟨618030, 400, .RxTransaction, "Unable to cancel prescription"⟩
  rxCompleteTxFailed :=
    ⟨618031, 400, .RxTransaction, "Unable to complete prescription transaction"⟩
  rxCompleteTxFailedUnknown :=
    ⟨618032, 400, .RxTransaction, "Unable to complete prescription transaction"⟩
  userDoesNotBelongToOrganisation :=
    ⟨623033, 403, .User, "User does not belong to requested organisation"⟩
  authTokenExpired :=
    ⟨623034, 400, .User, "Bearer token has expired"⟩
  blockedAccount :=
    ⟨623035, 403, .User, "User account is blocked"⟩
  canceledAccount :=
    ⟨623036, 403, .User, "User account has been cancelled"⟩
  emailVerificationAlreadyDone :=
    ⟨623037, 405, .User, "Email Verification is already done"⟩
  emailVerificationCodeExpired :=
    ⟨623038, 412, .User, "Email verification code has expired"⟩
  emailVerificationCodeInvalid :=
    ⟨623039, 412, .User, "Email verification code is invalid"⟩
  insufficientPermissions :=
    ⟨623040, 403, .User, "Insufficient permission to access this resource"⟩
  invalidAuthToken :=
    ⟨623041, 412, .User, "Supplied bearer token is invalid"⟩
  invalidLogin :=
    ⟨623042, 412, .User, "Invalid login credentials"⟩
  invalidPasswordResetCode :=
    ⟨623043, 412, .User, "Password reset code is invalid"⟩
  operationNotAllowed :=
    ⟨623044, 405, .User, "\x7boperation\x7d operation is not allowed"⟩
  passwordComplexity :=
    ⟨623045, 412, .User, "Invalid Password. Please check the requirements above."⟩
  passwordResetCodeHasExpired :=
    ⟨623046, 412, .User, "Password reset code has expired"⟩
  passwordResetOperationNotAllowed :=
    ⟨623047, 405, .User, "Password reset is not allowed"⟩
  permissionNotGranted :=
    ⟨623048, 403, .User, "Unable to grant sufficient access"⟩
  priorAccountWithEmail :=
    ⟨623049, 412, .User, "Different user with given email already exists"⟩
  priorAccountWithTelecom :=
    ⟨623050, 412, .User, "Different user with given telecom already exists"⟩
  userUpsertWhenEmailIsVerifiedNotAllowed :=
    ⟨623051, 412, .User, "User upsert is not allowed when email is already verified"⟩
  wrongDob :=
    ⟨623052, 412, .User, "Incorrect date of birth provided"⟩
  wrongDobOrTelecom :=
    ⟨623053, 412, .User, "Incorrect dob and/ or telecom provided"⟩
  wrongTelecom :=
    ⟨623054, 412, .User, "Incorrect telecom of birth provided"⟩
  responderNotPermitted :=
    ⟨620055, 403, .SituationResponder, "responderNotPermitted"⟩
  situationTypeNotPermitted :=
    ⟨620056, 403, .SituationResponder, "situationTypeNotPermitted"⟩
  telecomExtensionNotAllowed :=
    ⟨700057, 400, .ApiService, "telecomExtensionNotAllowed"⟩
  matchingAddressNotFound :=
    ⟨700058, 400, .ApiService, "matchingAddressNotFound"⟩
  unknownErrorpharmacyDoesNotAcceptFax :=
    ⟨615059, 400, .Pharmacy, "unknownErrorpharmacyDoesNotAcceptFax"⟩
  authTokenUserDoesNotExist :=
    ⟨623060, 403, .User, "There is no record for user presented in bearer token"⟩

/-- All sixty catalog entries, in source order. -/
def allConfigs : List ErrorConfig :=
  [ErrorConfigs.createFailed, ErrorConfigs.createOperationNotPermitted,
   ErrorConfigs.deleteFailed, ErrorConfigs.deleteOperationNotPermitted,
   ErrorConfigs.invalidData, ErrorConfigs.lookupFailed,
   ErrorConfigs.lookupOperationNotPermitted, ErrorConfigs.operationFailed,
   ErrorConfigs.operationNotPermitted, ErrorConfigs.updateFailed,
   ErrorConfigs.updateOperationNotPermitted, ErrorConfigs.uploadFailed,
   ErrorConfigs.uploadOperationNotPermitted, ErrorConfigs.upsertFailed,
   ErrorConfigs.upsertOperationNotPermitted, ErrorConfigs.recordAlreadyExists,
   ErrorConfigs.recordAlreadyImported, ErrorConfigs.recordDoesNotBelongToUser,
   ErrorConfigs.recordDoesNotExist, ErrorConfigs.serviceNotEnabled,
   ErrorConfigs.unknownError, ErrorConfigs.noDownloadableRx,
   ErrorConfigs.rxCancellationError, ErrorConfigs.rxCreationTrialOnlyError,
   ErrorConfigs.rxDownloadTokenAlreadyRedeemed,
   ErrorConfigs.requestRxDownloadTokenFailed,
   ErrorConfigs.redeemRxDownloadTokenFailed, ErrorConfigs.rxFilledAlready,
   ErrorConfigs.rxCancelFailed, ErrorConfigs.rxCancelFailedUnknown,
   ErrorConfigs.rxCompleteTxFailed, ErrorConfigs.rxCompleteTxFailedUnknown,
   ErrorConfigs.userDoesNotBelongToOrganisation, ErrorConfigs.authTokenExpired,
   ErrorConfigs.blockedAccount, ErrorConfigs.canceledAccount,
   ErrorConfigs.emailVerificationAlreadyDone,
   ErrorConfigs.emailVerificationCodeExpired,
   ErrorConfigs.emailVerificationCodeInvalid,
   ErrorConfigs.insufficientPermissions, ErrorConfigs.invalidAuthToken,
   ErrorConfigs.invalidLogin, ErrorConfigs.invalidPasswordResetCode,
   ErrorConfigs.operationNotAllowed, ErrorConfigs.passwordComplexity,
   ErrorConfigs.passwordResetCodeHasExpired,
   ErrorConfigs.passwordResetOperationNotAllowed,
   ErrorConfigs.permissionNotGranted, ErrorConfigs.priorAccountWithEmail,
   ErrorConfigs.priorAccountWithTelecom,
   ErrorConfigs.userUpsertWhenEmailIsVerifiedNotAllowed, ErrorConfigs.wrongDob,
   ErrorConfigs.wrongDobOrTelecom, ErrorConfigs.wrongTelecom,
   ErrorConfigs.responderNotPermitted, ErrorConfigs.situationTypeNotPermitted,
   ErrorConfigs.telecomExtensionNotAllowed, ErrorConfigs.matchingAddressNotFound,
   ErrorConfigs.unknownErrorpharmacyDoesNotAcceptFax,
   ErrorConfigs.authTokenUserDoesNotExist]

/-- One step of a leftmost scan replacing every occurrence of `pat` by
`repl`; `fuel` bounds the number of scanned positions (each step consumes
at least one character, so `fuel = length of the scanned list` suffices). -/
def replaceAllAux (pat repl : List Char) : Nat → List Char → List Char
  | _, [] => []
  | 0, l => l
  | fuel + 1, c :: rest =>
    if pat ≠ [] ∧ pat.isPrefixOf (c :: rest) then
      repl ++ replaceAllAux pat repl fuel (List.drop (pat.length - 1) rest)
    else
      c :: replaceAllAux pat repl fuel rest

/-- Global textual replacement of every occurrence of the literal `pat` in
`s` by `repl` (leftmost, non-overlapping), as performed by the message
formatter on string templates. -/
def replaceAll (s pat repl : String) : String :=
  String.mk (replaceAllAux pat.data repl.data s.data.length s.data)

/-- Modelled from the spec: a mapping entry of the message formatter is a
scalar (replaced textually) or an object (silently skipped). -/
inductive FormatValue where
  | scalar (s : String)
  | objectVal

/-- Modelled from the spec: the values source accepted by the message
formatter of the missing `ServiceError` implementation — either a plain
string (an opaque value, for which the template is returned unmodified) or
a mapping from placeholder names to scalar or object values.  The
function-valued-placeholder branch (which returns an ordered parts array
rather than a string) is not modelled: no claim exercises it. -/
inductive FormatValues where
  | opaqueStr (s : String)
  | mapping (kvs : List (String × FormatValue))

/-- Modelled from the spec: the generic map-based formatter of §4.2 — a
plain-string values source is a no-op; for a mapping, every scalar entry
`(k, v)` globally replaces the literal token `{k}` by `v`, and
object-valued entries are skipped. -/
def formatMessage (template : String) : Option FormatValues → String
  | none => template
  | some (.opaqueStr _) => template
  | some (.mapping kvs) =>
    kvs.foldl
      (fun acc kv =>
        match kv.2 with
        | .scalar s => replaceAll acc ("\x7b" ++ kv.1 ++ "\x7d") s
        | .objectVal => acc)
      template

/-- Modelled from the spec: the missing `ServiceError` constructor path —
`new ServiceError(errorConfig, operation?, details?, debugInfo?)` first
performs the direct two-token substitution (replacing the literal
`{operation}` and `{details}` tokens by the caller-supplied strings when
present) and then runs the generic formatter on the result with the
`debugInfo` values source; the result is exposed as `errorConfig.message`. -/
def serviceErrorMessage (cfg : ErrorConfig) (operation details : Option String)
    (debugInfo : Option FormatValues) : String :=
  let m1 := match operation with
    | some op => replaceAll cfg.message "\x7boperation\x7d" op
    | none => cfg.message
  let m2 := match details with
    | some d => replaceAll m1 "\x7bdetails\x7d" d
    | none => m1
  formatMessage m2 debugInfo

/-- The `headline` getter, modelled as a state transformer on the instance
(the getter body of every subclass only reads fields and performs no
assignment, so the post-state is rebuilt from the read fields unchanged). -/
def headlineGet (flag : Bool) (e : ErrInst) : String × ErrInst :=
  (hl flag e.variant e.details,
    { variant := e.variant, details := e.details, debugInfo := e.debugInfo,
      errorRef := e.errorRef })

/-- The instance `toString()`, modelled as a state transformer on the
instance (the static `BaseError.toString` only reads fields). -/
def toStringGet (flag : Bool) (e : ErrInst) : String × ErrInst :=
  (errToString flag e.variant e.details e.debugInfo,
    { variant := e.variant, details := e.details, debugInfo := e.debugInfo,
      errorRef := e.errorRef })

/-- One uppercase letter `A`–`Z`. -/
def isUpperAZ (c : Char) : Bool :=
  decide ('A' ≤ c) && decide (c ≤ 'Z')

/-- One decimal digit `0`–`9`. -/
def isDigit09 (c : Char) : Bool :=
  decide ('0' ≤ c) && decide (c ≤ '9')

/-- The reference-code shape `[A-Z]{3}[0-9]{3}`: exactly six characters,
three uppercase letters followed by three digits. -/
def refPattern (s : String) : Bool :=
  match s.data with
  | [a, b, c, x, y, z] =>
      isUpperAZ a && isUpperAZ b && isUpperAZ c
        && isDigit09 x && isDigit09 y && isDigit09 z
  | _ => false

/-- A well-formed reference code: six characters matching the pattern. -/
def refOk (s : String) : Prop :=
  s.length = 6 ∧ refPattern s = true

/-- `(a ++ b).data` splits into the two data lists. -/
theorem dataAppend (a b : String) : (a ++ b).data = a.data ++ b.data :=
  String.data_append a b

/-- A string with a non-empty left part is non-empty. -/
theorem append_ne_empty_left (a b : String) (h : a ≠ "") : a ++ b ≠ "" := by
  intro hab
  apply h
  cases a with
  | mk la =>
    cases b with
    | mk lb =>
      have hd : la ++ lb = ([] : List Char) := congrArg String.data hab
      rcases List.append_eq_nil.mp hd with ⟨h1, _⟩
      simp [h1]

/-- A pattern occurs in any list of which it is a segment. -/
theorem occursIn_append (pat pre suf : List Char) :
    occursIn pat (pre ++ pat ++ suf) = true := by
  induction pre with
  | nil =>
    cases pat with
    | nil => cases suf <;> simp [occursIn, List.isEmpty, List.isPrefixOf]
    | cons c cs =>
      simp only [List.nil_append, List.cons_append, occursIn, Bool.or_eq_true]
      left
      rw [List.isPrefixOf_iff_prefix]
      exact ⟨suf, by simp⟩
  | cons c pre ih =>
    simp only [List.cons_append, occursIn, Bool.or_eq_true]
    right
    exact ih

/-- Splitting a string around a segment witnesses containment. -/
theorem strContains_of_split (hay needle pre suf : String)
    (h : hay = pre ++ needle ++ suf) : strContains hay needle := by
  unfold strContains
  rw [h, dataAppend, dataAppend]
  exact occursIn_append needle.data pre.data suf.data

/-- Every variant headline starts with a non-empty literal, so it is never
the empty string (whatever the payload and the debug flag). -/
theorem hl_ne_empty (flag : Bool) (v : Variant) (d : Js) : hl flag v d ≠ "" := by
  cases v <;> simp only [hl, hlWith] <;>
    (repeat' apply append_ne_empty_left) <;> decide

/-- Unfolding of the static `toString`: guard on the truthiness of
headline / details / debugInfo, then headline, colorized details and
flag-gated colorized debug info, with the constructor name as fallback. -/
theorem errToString_unfold (flag : Bool) (v : Variant) (d dbg : Js) :
    errToString flag v d dbg =
      if hl flag v d != "" || truthy d || truthy dbg then
        (if hl flag v d != "" then hl flag v d else "") ++
        (if truthy d then cyanize ("\n" ++ detailToString flag d) else "") ++
        (if truthy dbg && flag then
            greenize ("\n" ++ detailToString flag dbg ++ "\n")
          else "")
      else v.constructorName := rfl

/-- Since headlines are never empty, the guard of `toString` always passes
and the output is headline plus the two optional colorized payloads. -/
theorem errToString_eq_of (flag : Bool) (v : Variant) (d dbg : Js) :
    errToString flag v d dbg =
      hl flag v d ++
      (if truthy d then cyanize ("\n" ++ detailToString flag d) else "") ++
      (if truthy dbg && flag then
          greenize ("\n" ++ detailToString flag dbg ++ "\n")
        else "") := by
  rw [errToString_unfold]
  have hb : (hl flag v d != "") = true := by
    simp [bne_iff_ne, hl_ne_empty flag v d]
  simp [hb]

/-- `detailToString` of a nested `BaseError` is its overridden
`toString`. -/
theorem detailToString_baseErr (flag : Bool) (v : Variant) (d dbg : Js)
    (ref : String) :
    detailToString flag (.baseErr v d dbg ref) = errToString flag v d dbg := rfl

/-- The `detailToString` strings of the elements of an array. -/
theorem renderElems_snd (flag : Bool) (xs : List Js) :
    (renderElems flag xs).2 = xs.map (detailToString flag) := by
  induction xs with
  | nil => rfl
  | cons x xs ih => simp [renderElems, detailToString, ih]

/-- For an in-range letter draw, `charAt` on the alphabet yields a single
uppercase character. -/
theorem charAt_possible_spec (l : Nat) (h : l < 26) :
    ∃ ch, charAt possible l = String.mk [ch] ∧ ('A' ≤ ch ∧ ch ≤ 'Z') := by
  interval_cases l <;> exact ⟨_, rfl, by decide⟩

/-- For an in-range digit draw, the appended decimal string is a single
character between `0` and `8`. -/
theorem digitStr_spec (d : Nat) (h : d < 9) :
    ∃ ch, digitStr d = String.mk [ch] ∧ ('0' ≤ ch ∧ ch ≤ '8') := by
  interval_cases d <;> exact ⟨_, rfl, by decide⟩

/-- The generated reference is three uppercase letters followed by three
digits between `0` and `8`. -/
theorem generateRef_data (r : RefRand) (h : r.inRange) :
    ∃ a b c x y z, (generateRef r).data = [a, b, c, x, y, z]
      ∧ ('A' ≤ a ∧ a ≤ 'Z') ∧ ('A' ≤ b ∧ b ≤ 'Z') ∧ ('A' ≤ c ∧ c ≤ 'Z')
      ∧ ('0' ≤ x ∧ x ≤ '8') ∧ ('0' ≤ y ∧ y ≤ '8') ∧ ('0' ≤ z ∧ z ≤ '8') := by
  obtain ⟨h1, h2, h3, h4, h5, h6⟩ := h
  obtain ⟨a, ea, pa⟩ := charAt_possible_spec r.l1 h1
  obtain ⟨b, eb, pb⟩ := charAt_possible_spec r.l2 h2
  obtain ⟨c, ec, pc⟩ := charAt_possible_spec r.l3 h3
  obtain ⟨x, ex, px⟩ := digitStr_spec r.d1 h4
  obtain ⟨y, ey, py⟩ := digitStr_spec r.d2 h5
  obtain ⟨z, ez, pz⟩ := digitStr_spec r.d3 h6
  refine ⟨a, b, c, x, y, z, ?_, pa, pb, pc, px, py, pz⟩
  simp [generateRef, ea, eb, ec, ex, ey, ez, dataAppend]

/-- Every in-range draw produces a six-character reference matching the
`[A-Z]{3}[0-9]{3}` pattern. -/
theorem refOk_generateRef (r : RefRand) (h : r.inRange) :
    refOk (generateRef r) := by
  obtain ⟨a, b, c, x, y, z, hdata, pa, pb, pc, px, py, pz⟩ :=
    generateRef_data r h
  constructor
  · show (generateRef r).data.length = 6
    rw [hdata]
    rfl
  · unfold refPattern
    rw [hdata]
    simp only [isUpperAZ, isDigit09, Bool.and_eq_true, decide_eq_true_eq]
    exact ⟨⟨⟨⟨⟨⟨pa.1, pa.2⟩, pb.1, pb.2⟩, pc.1, pc.2⟩, px.1,
      le_trans px.2 (by decide)⟩, py.1, le_trans py.2 (by decide)⟩, pz.1,
      le_trans pz.2 (by decide)⟩

/-- C1: for every error instance whose `details` payload is itself a
`BaseError` instance with a non-empty headline, the `toString()` rendering
of the outer instance contains the inner instance's headline as a
contiguous substring. -/
theorem nested_details_headline_contained (flag : Bool) (ov iv : Variant)
    (idet idbg odbg : Js) (iref : String) (h : hl flag iv idet ≠ "") :
    strContains (errToString flag ov (.baseErr iv idet idbg iref) odbg)
      (hl flag iv idet) := by
  apply strContains_of_split _ _
    (hl flag ov (.baseErr iv idet idbg iref) ++ "\x1b[36m" ++ "\n")
    ((if truthy idet then cyanize ("\n" ++ detailToString flag idet) else "")
      ++ (if truthy idbg && flag then
            greenize ("\n" ++ detailToString flag idbg ++ "\n")
          else "")
      ++ "\x1b[39m"
      ++ (if truthy odbg && flag then
            greenize ("\n" ++ detailToString flag odbg ++ "\n")
          else ""))
  rw [errToString_eq_of]
  have hdet : truthy (Js.baseErr iv idet idbg iref) = true := rfl
  rw [hdet]
  simp only [if_true]
  rw [detailToString_baseErr, errToString_eq_of flag iv idet idbg]
  apply String.ext
  simp [cyanize, colorize, dataAppend, List.append_assoc]

/-- Witness for C1 at a concrete outer `OpError` wrapping an inner
`RuleViolationError`. -/
theorem nested_details_headline_contained_witness :
    hl false (.ruleViolationError "r1") .undefined ≠ ""
    ∧ strContains
        (errToString false (.opError "Comp" "doIt")
          (.baseErr (.ruleViolationError "r1") .undefined .undefined "ABC123") .undefined)
        (hl false (.ruleViolationError "r1") .undefined) :=
  ⟨by decide,
    nested_details_headline_contained false (.opError "Comp" "doIt")
      (.ruleViolationError "r1") .undefined .undefined .undefined "ABC123" (by decide)⟩

/-- C2: when `details` and `debugInfo` are both absent (`undefined`) and
the headline is non-empty, `toString()` returns exactly the headline. -/
theorem toString_eq_headline_without_payloads (flag : Bool) (v : Variant)
    (h : hl flag v .undefined ≠ "") :
    errToString flag v .undefined .undefined = hl flag v .undefined := by
  rw [errToString_eq_of]
  simp [truthy]

/-- Witness for C2 at a concrete `RuleViolationError`. -/
theorem toString_eq_headline_without_payloads_witness :
    hl false (.ruleViolationError "r1") .undefined ≠ ""
    ∧ errToString false (.ruleViolationError "r1") .undefined .undefined
        = hl false (.ruleViolationError "r1") .undefined :=
  ⟨by decide,
    toString_eq_headline_without_payloads false (.ruleViolationError "r1")
      (by decide)⟩

/-- Counterexample to C3 as stated: with the debug flag `false` (its
default) the rendered `debugInfo` text CAN appear in the `toString()`
output — here the `debugInfo` payload renders to `"Internal"`, which
occurs (coincidentally, via the headline) in the output of an `OpError`
whose rendering ignores the payload. -/
theorem debug_text_occurrence_counterexample :
    strContains (errToString false (.opError "A" "f") .undefined (.str "Internal"))
      (detailToString false (.str "Internal")) := by
  unfold strContains
  decide

/-- C3 (amended): when the process-wide flag `addDebugInfoToMessage` is
`false` (its default), the `debugInfo` payload has no influence on
`toString()`: two instances identical in every field except `debugInfo`
render to the same string, which equals the rendering with `debugInfo`
absent — so no text is ever appended on account of `debugInfo` (though the
same text may coincidentally occur via the other fields). -/
theorem debugInfo_no_influence_flag_off (v : Variant) (d dbg1 dbg2 : Js) :
    errToString false v d dbg1 = errToString false v d dbg2
    ∧ errToString false v d dbg1 = errToString false v d .undefined := by
  constructor <;> simp [errToString_eq_of]

/-- C4: `detailToString` distributes over arrays — a three-element array
renders as the `" & "`-join of its element renderings, and an n-element
array renders as the `" & "`-intercalation of the element renderings. -/
theorem detailToString_array_amp_join (flag : Bool) (a b c : Js)
    (xs : List Js) :
    detailToString flag (.arr [a, b, c]) =
      detailToString flag a ++ " & " ++ detailToString flag b ++ " & "
        ++ detailToString flag c
    ∧ detailToString flag (.arr xs) =
        String.intercalate " & " (xs.map (detailToString flag)) := by
  constructor
  · show (renderPair flag (.arr [a, b, c])).2 = _
    simp only [renderPair, renderElems_snd]
    simp [List.map, detailToString]
    rfl
  · show (renderPair flag (.arr xs)).2 = _
    simp [renderPair, renderElems_snd]

/-- C5: constructing each of the eleven concrete variants with its
required identifying fields and no `details`/`debugInfo` yields a
non-empty headline, and the generated `errorRef` is exactly six characters
matching `[A-Z]{3}[0-9]{3}` (for every admissible outcome of the six
random draws). -/
theorem variants_headline_nonempty_ref_pattern (flag : Bool)
    (componentName opName rule service endpoint deviceOS : String)
    (ct : ConnectionType) (uc : UserErrorCategory)
    (dc : DeviceOpErrorCategory) (err : Js) (r : RefRand)
    (h : r.inRange) :
    ((mkOpError componentName opName .undefined .undefined r).headline flag ≠ ""
      ∧ refOk (mkOpError componentName opName .undefined .undefined r).errorRef)
    ∧ ((mkNoOpError componentName opName .undefined .undefined r).headline flag ≠ ""
      ∧ refOk (mkNoOpError componentName opName .undefined .undefined r).errorRef)
    ∧ ((mkRuleViolationError rule .undefined .undefined r).headline flag ≠ ""
      ∧ refOk (mkRuleViolationError rule .undefined .undefined r).errorRef)
    ∧ ((mkSecurityRuleViolation rule .undefined .undefined r).headline flag ≠ ""
      ∧ refOk (mkSecurityRuleViolation rule .undefined .undefined r).errorRef)
    ∧ ((mkAPICallError service endpoint .undefined r).headline flag ≠ ""
      ∧ refOk (mkAPICallError service endpoint .undefined r).errorRef)
    ∧ ((mkConnectionError ct .undefined .undefined r).headline flag ≠ ""
      ∧ refOk (mkConnectionError ct .undefined .undefined r).errorRef)
    ∧ ((mkNotImplementedError r).headline flag ≠ ""
      ∧ refOk (mkNotImplementedError r).errorRef)
    ∧ ((mkUserError uc .undefined .undefined r).headline flag ≠ ""
      ∧ refOk (mkUserError uc .undefined .undefined r).errorRef)
    ∧ ((mkDeviceOpError componentName opName dc deviceOS .undefined .undefined r).headline flag ≠ ""
      ∧ refOk (mkDeviceOpError componentName opName dc deviceOS .undefined .undefined r).errorRef)
    ∧ ((mkUnhandledRejection err r).headline flag ≠ ""
      ∧ refOk (mkUnhandledRejection err r).errorRef)
    ∧ ((mkUncaughtException err r).headline flag ≠ ""
      ∧ refOk (mkUncaughtException err r).errorRef) := by
  have hr : refOk (generateRef r) := refOk_generateRef r h
  exact ⟨⟨hl_ne_empty flag (.opError componentName opName) .undefined, hr⟩,
    ⟨hl_ne_empty flag (.noOpError componentName opName) .undefined, hr⟩,
    ⟨hl_ne_empty flag (.ruleViolationError rule) .undefined, hr⟩,
    ⟨hl_ne_empty flag (.securityRuleViolation rule) .undefined, hr⟩,
    ⟨hl_ne_empty flag (.apiCallError service endpoint) .undefined, hr⟩,
    ⟨hl_ne_empty flag (.connectionError ct) .undefined, hr⟩,
    ⟨hl_ne_empty flag .notImplementedError .undefined, hr⟩,
    ⟨hl_ne_empty flag (.userError uc) .undefined, hr⟩,
    ⟨hl_ne_empty flag (.deviceOpError componentName opName dc deviceOS) .undefined, hr⟩,
    ⟨hl_ne_empty flag .unhandledRejection err, hr⟩,
    ⟨hl_ne_empty flag .uncaughtException err, hr⟩⟩

/-- Witness for C5 at concrete random draws `(0, 1, 2, 3, 4, 5)`
(reference code `"ABC345"`). -/
theorem variants_headline_nonempty_ref_pattern_witness :
    RefRand.inRange ⟨0, 1, 2, 3, 4, 5⟩
    ∧ ((mkOpError "Comp" "doIt" .undefined .undefined ⟨0, 1, 2, 3, 4, 5⟩).headline false ≠ ""
      ∧ refOk (mkOpError "Comp" "doIt" .undefined .undefined ⟨0, 1, 2, 3, 4, 5⟩).errorRef) :=
  ⟨by unfold RefRand.inRange; decide,
    (variants_headline_nonempty_ref_pattern false "Comp" "doIt" "r1" "Svc"
      "ep" "ios" .lan .invalidLogin .locationService .undefined
      ⟨0, 1, 2, 3, 4, 5⟩ (by unfold RefRand.inRange; decide)).1⟩

/-- C6: in the `ErrorConfigs` catalog all sixty codes are pairwise
distinct, and the codes respect the category-prefixed ranges: `Info`
entries use `600xxx`, `Rx` entries `616xxx`, `User` entries `623xxx`,
`ApiService` entries `700xxx`. -/
theorem catalog_codes_unique_and_partitioned :
    (allConfigs.map fun cfg => cfg.code).Nodup
    ∧ ∀ cfg ∈ allConfigs,
        (cfg.category = ErrorCategory.Info →
          600000 ≤ cfg.code ∧ cfg.code < 601000)
        ∧ (cfg.category = ErrorCategory.Rx →
          616000 ≤ cfg.code ∧ cfg.code < 617000)
        ∧ (cfg.category = ErrorCategory.User →
          623000 ≤ cfg.code ∧ cfg.code < 624000)
        ∧ (cfg.category = ErrorCategory.ApiService →
          700000 ≤ cfg.code ∧ cfg.code < 701000) := by
  constructor
  · decide
  · decide

/-- C7: the two-pass substitution of the (spec-modelled) `ServiceError`
path turns the `operationFailed` template with `operation = "create"` into
`"Unable to perform create operation"` with no residual `{operation}`
token, while `recordDoesNotExist` with only a plain-string `debugInfo`
value `"Patient"` leaves the `{context}` token unsubstituted in the
exposed message. -/
theorem serviceError_two_pass_formatting :
    serviceErrorMessage ErrorConfigs.operationFailed (some "create") none none
      = "Unable to perform create operation"
    ∧ occursIn "\x7boperation\x7d".data
        (serviceErrorMessage ErrorConfigs.operationFailed (some "create")
          none none).data
      = false
    ∧ serviceErrorMessage ErrorConfigs.recordDoesNotExist none none
        (some (.opaqueStr "Patient"))
      = "\x7bcontext\x7d record does not exist. Contact Support (support@scalamed.com) for help"
    ∧ occursIn "\x7bcontext\x7d".data
        (serviceErrorMessage ErrorConfigs.recordDoesNotExist none none
          (some (.opaqueStr "Patient"))).data
      = true :=
  ⟨by decide, by decide, by decide, by decide⟩

/-- C8: accessing `headline` or calling `toString()` modifies no field of
the instance (the post-state of the state-transformer model of the getters
equals the pre-state, so `type`, `details`, `debugInfo`, `errorRef` and
the variant-specific fields are unchanged), and repeated accesses return
equal strings. -/
theorem headline_toString_frame_pure (flag : Bool) (e : ErrInst) :
    (headlineGet flag e).2 = e ∧ (toStringGet flag e).2 = e
    ∧ (headlineGet flag ((headlineGet flag e).2)).1 = (headlineGet flag e).1
    ∧ (toStringGet flag ((toStringGet flag e).2)).1 = (toStringGet flag e).1 := by
  obtain ⟨v, d, dbg, ref⟩ := e
  exact ⟨rfl, rfl, rfl, rfl⟩

/-- C9: the last three characters of every generated `errorRef` are digits
drawn only from `0` through `8` (the random factor is `9`, not `10`), and
the digit `9` never occurs anywhere in a reference code. -/
theorem generated_ref_digits_zero_to_eight (r : RefRand) (h : r.inRange) :
    (∃ a b c x y z, (generateRef r).data = [a, b, c, x, y, z]
      ∧ ('0' ≤ x ∧ x ≤ '8') ∧ ('0' ≤ y ∧ y ≤ '8') ∧ ('0' ≤ z ∧ z ≤ '8'))
    ∧ '9' ∉ (generateRef r).data := by
  obtain ⟨a, b, c, x, y, z, hdata, pa, pb, pc, px, py, pz⟩ :=
    generateRef_data r h
  refine ⟨⟨a, b, c, x, y, z, hdata, px, py, pz⟩, ?_⟩
  rw [hdata]
  intro hmem
  simp only [List.mem_cons, List.not_mem_nil, or_false] at hmem
  rcases hmem with h9 | h9 | h9 | h9 | h9 | h9
  · exact absurd (h9 ▸ pa.1) (by decide)
  · exact absurd (h9 ▸ pb.1) (by decide)
  · exact absurd (h9 ▸ pc.1) (by decide)
  · exact absurd (h9 ▸ px.2) (by decide)
  · exact absurd (h9 ▸ py.2) (by decide)
  · exact absurd (h9 ▸ pz.2) (by decide)

/-- Witness for C9 at concrete random draws `(0, 1, 2, 3, 4, 5)`. -/
theorem generated_ref_digits_zero_to_eight_witness :
    RefRand.inRange ⟨0, 1, 2, 3, 4, 5⟩
    ∧ ((∃ a b c x y z,
          (generateRef ⟨0, 1, 2, 3, 4, 5⟩).data = [a, b, c, x, y, z]
          ∧ ('0' ≤ x ∧ x ≤ '8') ∧ ('0' ≤ y ∧ y ≤ '8') ∧ ('0' ≤ z ∧ z ≤ '8'))
        ∧ '9' ∉ (generateRef ⟨0, 1, 2, 3, 4, 5⟩).data) :=
  ⟨by unfold RefRand.inRange; decide,
    generated_ref_digits_zero_to_eight ⟨0, 1, 2, 3, 4, 5⟩
      (by unfold RefRand.inRange; decide)⟩

/-- C10: for the same constructor arguments, `NoOpError` and `OpError`
produce the same headline (the cancelled-as-unnecessary variant renders
the same failure headline as a genuine operation failure); the two differ
only in their type tag (`noOp` versus `operationError`), all other stored
fields being equal. -/
theorem noOpError_opError_same_headline (flag : Bool) (c o : String)
    (d dbg : Js) (r : RefRand) :
    (mkNoOpError c o d dbg r).headline flag
      = (mkOpError c o d dbg r).headline flag
    ∧ (mkNoOpError c o d dbg r).type = ErrorType.noOp
    ∧ (mkOpError c o d dbg r).type = ErrorType.operation
    ∧ (mkNoOpError c o d dbg r).details = (mkOpError c o d dbg r).details
    ∧ (mkNoOpError c o d dbg r).debugInfo = (mkOpError c o d dbg r).debugInfo
    ∧ (mkNoOpError c o d dbg r).errorRef = (mkOpError c o d dbg r).errorRef :=
  ⟨rfl, rfl, rfl, rfl, rfl, rfl⟩
